import Mathlib

/-!
# Verification of the pumpkin-watchdog supervisor (src/watchdog.py)

Shallow embedding of the watchdog's core logic in Lean 4:

* the wire-protocol helpers `mc_read_var_int`, `mc_write_var_int`,
  `mc_var_int_length` and the connection handler `handle_mc`
  (src/watchdog.py lines 339-437);
* the supervisor loop `binary_runner` (lines 522-707), split into the
  one-time startup pipeline (`binary_runner_init`, lines 532-599) and one
  iteration of the restart loop (`binary_runner_iter`, lines 602-707),
  together with `wait_for_process_or_signal` (lines 167-210);
* one probe cycle of `deadlock_checker` (lines 440-468).

Byte streams are modelled as `List Nat` (each element a byte value);
Python exceptions become `Except`/explicit abort branches; external
effects (subprocess success/failure, which of the two awaited events
fires first, queue contents) are inputs supplied by an environment
record, and observable actions (signals sent, status-channel puts,
sleeps, log files opened) are collected in trace records.
-/

namespace Watchdog

/-! ## Wire protocol: variable-length integers (lines 335-369) -/

/-- Errors raised while handling a connection.  `endOfStream` models the
Python IndexError on reading from an exhausted reader; the others model
the explicit MCException raises in the source. -/
inductive MCErr where
  | endOfStream
  | varIntTooBig
  | addressTooBig
  | badPacketLength (real declared : Nat)
deriving DecidableEq, Repr

/-- Loop body of mc_read_var_int (lines 339-350).  Each iteration reads one
byte, ors its low 7 bits shifted by position into value, stops when the
high (continuation) bit is clear, and raises once position reaches 32.
Returns (value, bytes_read, remaining stream). -/
def mc_read_var_int_loop : List Nat → Nat → Nat → Nat → Except MCErr (Nat × Nat × List Nat)
  | [], _, _, _ => .error .endOfStream
  | current_byte :: rest, value, position, bytes_read =>
    let bytes_read' := bytes_read + 1
    let value' := value ||| ((current_byte &&& 0x7F) <<< position)
    if current_byte &&& 0x80 = 0 then
      .ok (value', bytes_read', rest)
    else if position + 7 ≥ 32 then
      .error .varIntTooBig
    else
      mc_read_var_int_loop rest value' (position + 7) bytes_read'

/-- mc_read_var_int (lines 339-350): decode one varint from the front of the
stream. -/
def mc_read_var_int (bytes : List Nat) : Except MCErr (Nat × Nat × List Nat) :=
  mc_read_var_int_loop bytes 0 0 0

/-- mc_write_var_int (lines 363-369): the emitted bytes.  The Python guard
not (num and bitwise-not 0x7F) on a nonnegative int is exactly
num >>> 7 = 0. -/
def mc_write_var_int (num : Nat) : List Nat :=
  if h : num >>> 7 = 0 then
    [num]
  else
    ((num &&& 0x7F) ||| 0x80) :: mc_write_var_int (num >>> 7)
termination_by num
decreasing_by
  simp only [Nat.shiftRight_eq_div_pow] at *
  exact Nat.div_lt_self (Nat.pos_of_ne_zero (fun h0 => h (by simp [h0]))) (by norm_num)

/-- mc_var_int_length (lines 353-360): number of bytes the encoder would
emit. -/
def mc_var_int_length (num : Nat) : Nat :=
  if h : num >>> 7 = 0 then
    1
  else
    1 + mc_var_int_length (num >>> 7)
termination_by num
decreasing_by
  simp only [Nat.shiftRight_eq_div_pow] at *
  exact Nat.div_lt_self (Nat.pos_of_ne_zero (fun h0 => h (by simp [h0]))) (by norm_num)

/-! ## Wire protocol: connection handler (lines 372-437) -/

/-- The JSON object handle_mc serialises and writes back: either the bare
text object (non-handshake packet ids, or next state different from 1) or
the full status object echoing the protocol version.  We keep just the
fields that vary; the constant fields (version name "Any", empty player
list, favicon) are fixed in the source. -/
inductive MCData where
  | textOnly (text : String)
  | status (protocol : Nat) (text : String)
deriving DecidableEq, Repr

/-- handle_mc (lines 372-437) as a pure function from the inbound byte
stream to either a response object (the .ok case: the handler serialises
and writes it, then closes) or an error (the .except path: nothing is
written, the connection is closed silently).  reader.read(n) consumes up
to n bytes, hence List.drop. -/
def handle_mc (current_error : String) (input : List Nat) : Except MCErr MCData :=
  match mc_read_var_int input with
  | .error e => .error e
  | .ok (packet_length, _, r1) =>
    match mc_read_var_int r1 with
    | .error e => .error e
    | .ok (packet_id, id_bytes, r2) =>
      if packet_id = 0 then
        match mc_read_var_int r2 with
        | .error e => .error e
        | .ok (protocol_version, pv_bytes, r3) =>
          match mc_read_var_int r3 with
          | .error e => .error e
          | .ok (server_address_length, al_bytes, r4) =>
            if server_address_length > 255 then
              .error .addressTooBig
            else
              match mc_read_var_int ((r4.drop server_address_length).drop 2) with
              | .error e => .error e
              | .ok (next_state, ns_bytes, _) =>
                let real_packet_length :=
                  id_bytes + pv_bytes + al_bytes + server_address_length + 2 + ns_bytes
                if real_packet_length ≠ packet_length then
                  .error (.badPacketLength real_packet_length packet_length)
                else if next_state = 1 then
                  .ok (.status protocol_version current_error)
                else
                  .ok (.textOnly current_error)
      else
        .ok (.textOnly current_error)

/-! ## Status Board and supervisor state (commit_wrapper, lines 598-707, 723) -/

/-- get_log_file_path (lines 47-49): os.path.join(log_dir, commit,
(stderr|stdout)_counter.txt). -/
def get_log_file_path (log_dir commit : String) (counter : Nat) (is_stderr : Bool) : String :=
  log_dir ++ "/" ++ commit ++ "/" ++
    (if is_stderr then "stderr" else "stdout") ++ "_" ++ toString counter ++ ".txt"

/-- The shared commit_wrapper list (line 723): index 0 = commit id,
1 = displayed attempt count, 2 = commit name, 3 = error string
(empty = healthy), 4 = child pid ("" = not running, modelled as none). -/
structure BoardState where
  commit : String
  displayCount : Nat
  commitName : String
  error : String
  pid : Option Nat
deriving DecidableEq, Repr

/-- Signals binary_runner sends to the child during shutdown
(lines 187-192). -/
inductive SigAction where
  | sigint
  | kill
deriving DecidableEq, Repr

/-- Which of the two raced awaitables completes first inside
wait_for_process_or_signal (lines 175-178): the child exits on its own
with some code, or an update arrives on the queue. -/
inductive ProcEvent where
  | procExit (code : Int)
  | updateArrival (commit : String)
deriving DecidableEq, Repr

/-- Environment for one call of wait_for_process_or_signal: the first
event, whether the SIGINT makes the child exit within the 120 s grace
wait (line 189), and the queue entries still pending when the drain loop
(lines 202-203) runs. -/
structure WaitEnv where
  firstEvent : ProcEvent
  exitsWithinGrace : Bool
  queuedAfter : List String
deriving DecidableEq, Repr

/-- Observable actions of one wait_for_process_or_signal call. -/
structure WaitTrace where
  sigActions : List SigAction
  graceWaitSeconds : Option Nat
deriving DecidableEq, Repr

/-- The drain loop of lines 201-203: keep taking from the queue while it
is nonempty; the last value taken wins. -/
def drain_queue (c : String) (q : List String) : String :=
  match q with
  | [] => c
  | x :: rest => drain_queue x rest

/-- wait_for_process_or_signal (lines 167-210).  Returns none on plain
child exit (lines 182-185); on an update arrival it sends SIGINT, waits
up to 120 s, sends a kill on timeout (lines 187-198), then drains the
queue to the newest entry (lines 201-205). -/
def wait_for_process_or_signal (env : WaitEnv) : Option String × WaitTrace :=
  match env.firstEvent with
  | .procExit _ =>
    (none, { sigActions := [], graceWaitSeconds := none })
  | .updateArrival c =>
    (some (drain_queue c env.queuedAfter),
     { sigActions := if env.exitsWithinGrace then [.sigint] else [.sigint, .kill],
       graceWaitSeconds := some 120 })

/-- State the binary_runner loop carries across iterations: the shared
board, the local try_counter and total_counter (lines 591-601), and
whether binary_runner currently holds mc_lock. -/
structure SupState where
  board : BoardState
  tryCounter : Nat
  totalCounter : Nat
  lockHeld : Bool
deriving DecidableEq, Repr

/-- Outcomes of the external commands run during a planned restart
(lines 639-698): which stages raise SubprocessError, how many times
get_repo_description fails before succeeding, and the commit id/name it
finally reports. -/
structure RebuildEnv where
  repoSyncFails : Bool
  pluginSyncFails : Bool
  rustUpdateFails : Bool
  pluginBuildFails : Bool
  binaryBuildFails : Bool
  descFailures : Nat
  newCommit : String
  newCommitName : String
deriving DecidableEq, Repr

/-- External inputs for one iteration of the binary_runner while-loop
(lines 602-707). -/
structure IterInput where
  waitEnv : WaitEnv
  rebuild : RebuildEnv
deriving DecidableEq, Repr

/-- Observable actions of one loop iteration: the log files opened for
the child (lines 607-610), the wait/shutdown actions, the values put on
mc_queue (none is the pause sentinel of line 611), the timed sleeps, and
the commit the iteration tries to rebuild to (none when the child died
with no update pending). -/
structure IterTrace where
  stdoutLog : String
  stderrLog : String
  waitTrace : WaitTrace
  mcQueuePuts : List (Option String)
  sleeps : List Nat
  rebuildTarget : Option String
deriving DecidableEq, Repr

/-- Error string written on an unplanned child death (line 630). -/
def died_error_msg : String :=
  "The PumpkinMC binary died for an unknown reason! Check the logs!"

/-- One iteration of the binary_runner while-loop (lines 602-707).
The iteration opens the per-attempt logs, pauses the placeholder and
acquires mc_lock, starts the child, sets can_access_mc, clears the error
field and records the pid (lines 610-619), waits for exit or update, then
in the finally block clears the pid and releases the lock (lines
621-626).  Branches: unplanned death (lines 628-634); planned restart
whose repo sync / plugin sync / rust update / plugin build / binary build
fails, each recording its error and abandoning the restart via continue
(lines 639-688); or full success, re-reading the repo description
(retrying every 600 s, lines 690-698) and resetting the counters for the
new commit (lines 700-707).  The cache clean of lines 666-670 only ever
logs a warning and changes no modelled state. -/
def binary_runner_iter (log_dir : String) (st : SupState) (inp : IterInput) :
    SupState × IterTrace :=
  let totalCounter := st.totalCounter + 1
  let stdoutLog := get_log_file_path log_dir st.board.commit st.tryCounter false
  let stderrLog := get_log_file_path log_dir st.board.commit st.tryCounter true
  let waitResult := wait_for_process_or_signal inp.waitEnv
  let wt := waitResult.2
  let board0 : BoardState :=
    { st.board with displayCount := st.tryCounter, error := "", pid := none }
  match waitResult.1 with
  | none =>
    ({ board := { board0 with error := died_error_msg },
       tryCounter := st.tryCounter + 1, totalCounter := totalCounter, lockHeld := false },
     { stdoutLog := stdoutLog, stderrLog := stderrLog, waitTrace := wt,
       mcQueuePuts := [none, some "Binary failure! (Restarting in 5 minutes)"],
       sleeps := [300], rebuildTarget := none })
  | some newCommit =>
    let tc := st.tryCounter + 1
    let r := inp.rebuild
    if r.repoSyncFails then
      ({ board := { board0 with error := "Unable to update the local repo to " ++ newCommit },
         tryCounter := tc, totalCounter := totalCounter, lockHeld := false },
       { stdoutLog := stdoutLog, stderrLog := stderrLog, waitTrace := wt,
         mcQueuePuts := [none, some "Updating Repo..."],
         sleeps := [], rebuildTarget := some newCommit })
    else if r.pluginSyncFails then
      ({ board := { board0 with error := "Unable to update the plugin repos!" },
         tryCounter := tc, totalCounter := totalCounter, lockHeld := false },
       { stdoutLog := stdoutLog, stderrLog := stderrLog, waitTrace := wt,
         mcQueuePuts := [none, some "Updating Repo...", some "Updating Plugin Repos..."],
         sleeps := [], rebuildTarget := some newCommit })
    else if r.rustUpdateFails then
      ({ board := { board0 with error := "Unable to update rust for new commit " ++ newCommit },
         tryCounter := tc, totalCounter := totalCounter, lockHeld := false },
       { stdoutLog := stdoutLog, stderrLog := stderrLog, waitTrace := wt,
         mcQueuePuts := [none, some "Updating Repo...", some "Updating Plugin Repos...",
           some "Failed to update rust!"],
         sleeps := [], rebuildTarget := some newCommit })
    else if r.pluginBuildFails then
      ({ board := { board0 with error := "Unable to build plugins" },
         tryCounter := tc, totalCounter := totalCounter, lockHeld := false },
       { stdoutLog := stdoutLog, stderrLog := stderrLog, waitTrace := wt,
         mcQueuePuts := [none, some "Updating Repo...", some "Updating Plugin Repos...",
           some "Building Plugins...", some "Failed to build plugins!"],
         sleeps := [], rebuildTarget := some newCommit })
    else if r.binaryBuildFails then
      ({ board := { board0 with error := "Unable to build commit " ++ newCommit },
         tryCounter := tc, totalCounter := totalCounter, lockHeld := false },
       { stdoutLog := stdoutLog, stderrLog := stderrLog, waitTrace := wt,
         mcQueuePuts := [none, some "Updating Repo...", some "Updating Plugin Repos...",
           some "Building Plugins...", some "Building Binary...",
           some "Failed to build binary!"],
         sleeps := [], rebuildTarget := some newCommit })
    else
      ({ board := { board0 with
                    commit := r.newCommit, commitName := r.newCommitName,
                    displayCount := 0,
                    error := if r.descFailures > 0 then
                               "The PumpkinMC binary failed to start!"
                             else "" },
         tryCounter := 0, totalCounter := totalCounter, lockHeld := false },
       { stdoutLog := stdoutLog, stderrLog := stderrLog, waitTrace := wt,
         mcQueuePuts := [none, some "Updating Repo...", some "Updating Plugin Repos...",
           some "Building Plugins...", some "Building Binary..."] ++
           List.replicate r.descFailures (some "Failed to get commit!"),
         sleeps := List.replicate r.descFailures 600,
         rebuildTarget := some newCommit })

/-- True when the iteration takes the planned-restart path and every
rebuild stage succeeds, so the loop moves on to the new commit. -/
def rebuild_succeeds (inp : IterInput) : Bool :=
  (match inp.waitEnv.firstEvent with
   | .procExit _ => false
   | .updateArrival _ => true) &&
  !(inp.rebuild.repoSyncFails || inp.rebuild.pluginSyncFails ||
    inp.rebuild.rustUpdateFails || inp.rebuild.pluginBuildFails ||
    inp.rebuild.binaryBuildFails)

/-! ## The one-time startup pipeline of binary_runner (lines 532-599) -/

/-- Observable behaviour of one pipeline stage: how many times its
command was attempted, what it put on mc_queue, and the timed sleeps
between attempts. -/
structure StageTrace where
  attempts : Nat
  statusMessages : List String
  sleeps : List Nat
deriving DecidableEq, Repr

/-- The two sync stages at the top of binary_runner (lines 532-545): put
a progress message, run the command once, and on SubprocessError only
print a warning — no retry, no sleep, no failure message. -/
def sync_once (preMsg : String) (_fails : Bool) : StageTrace :=
  { attempts := 1, statusMessages := [preMsg], sleeps := [] }

/-- The retry loops of lines 547-583 and 690-698: each attempt first puts
preMsg (when the loop has one), runs the command, and on failure puts
failMsg and sleeps 600 s before the next attempt; the loop ends on the
first success.  failures is the number of failed attempts before that
success. -/
def retry_until_success (preMsg : Option String) (failMsg : String) :
    Nat → StageTrace
  | 0 => { attempts := 1, statusMessages := preMsg.toList, sleeps := [] }
  | n + 1 =>
    let rest := retry_until_success preMsg failMsg n
    { attempts := rest.attempts + 1,
      statusMessages := preMsg.toList ++ [failMsg] ++ rest.statusMessages,
      sleeps := 600 :: rest.sleeps }

/-- initial try_counter computation (lines 591-596): max over the
attempt numbers parsed from stdout_n.txt entries in the revision's log
directory, defaulting to 0, plus 1. -/
def initial_try_counter (existing : List Nat) : Nat :=
  existing.foldr max 0 + 1

/-- External outcomes for the startup pipeline (lines 532-596). -/
structure InitEnv where
  repoSyncFails : Bool
  pluginSyncFails : Bool
  rustFailures : Nat
  pluginBuildFailures : Nat
  binaryBuildFailures : Nat
  descFailures : Nat
  commit : String
  commitName : String
  existingAttempts : List Nat
deriving DecidableEq, Repr

/-- Result of the startup pipeline: per-stage traces and the values the
loop starts from (lines 585-601). -/
structure InitResult where
  commit : String
  commitName : String
  tryCounter : Nat
  repoSync : StageTrace
  pluginSync : StageTrace
  rustStage : StageTrace
  pluginBuildStage : StageTrace
  binaryBuildStage : StageTrace
  descStage : StageTrace
deriving DecidableEq, Repr

/-- The startup pipeline of binary_runner (lines 532-599): single-shot
repo and plugin syncs, retry-forever loops for rust update, plugin
build, binary build and repo description, then the initial try_counter
scan. -/
def binary_runner_init (env : InitEnv) : InitResult :=
  { commit := env.commit
    commitName := env.commitName
    tryCounter := initial_try_counter env.existingAttempts
    repoSync := sync_once "Updating Repo..." env.repoSyncFails
    pluginSync := sync_once "Updating Plugin Repos..." env.pluginSyncFails
    rustStage := retry_until_success none "Failed to update rust!" env.rustFailures
    pluginBuildStage :=
      retry_until_success (some "Building Plugins...") "Failed to build plugins!"
        env.pluginBuildFailures
    binaryBuildStage :=
      retry_until_success (some "Building Binary...") "Failed to build binary!"
        env.binaryBuildFailures
    descStage := retry_until_success none "Failed to get commit!" env.descFailures }

/-! ## Deadlock watchdog (lines 440-468) -/

/-- Outcome of one probe: a response arrived within the 10 s read
deadline, the read timed out, or the connection itself failed (the outer
except of lines 467-468, also covering write/drain errors). -/
inductive ProbeOutcome where
  | response
  | timeout
  | connectError
deriving DecidableEq, Repr

/-- The deadlock indicator string (lines 457, 461). -/
def deadlock_msg : String := "Deadlock detected!"

/-- Timing of one probe cycle: the 600 s sleep at the top and the 10 s
read deadline when a probe is actually made. -/
structure ProbeTrace where
  sleepBefore : Nat
  readDeadline : Option Nat
deriving DecidableEq, Repr

/-- One cycle of the deadlock_checker loop (lines 445-468).  canAccess is
can_access_mc[0] read after the sleep (line 447); canAccessAtTimeout is
its value re-read inside the timeout handler (line 460); error is
commit_wrapper[3] going in.  Returns the new value of commit_wrapper[3]
and the cycle's timing trace. -/
def deadlock_checker_cycle (canAccess canAccessAtTimeout : Bool) (error : String)
    (outcome : ProbeOutcome) : String × ProbeTrace :=
  if !canAccess then
    (error, { sleepBefore := 600, readDeadline := none })
  else
    match outcome with
    | .response =>
      (if error = deadlock_msg then "" else error,
       { sleepBefore := 600, readDeadline := some 10 })
    | .timeout =>
      (if canAccessAtTimeout then deadlock_msg else error,
       { sleepBefore := 600, readDeadline := some 10 })
    | .connectError =>
      (error, { sleepBefore := 600, readDeadline := none })

/-! ## Helper lemmas -/

/-- Draining always lands on the newest (last) value: the drain loop of
lines 201-203 computes the last element of first-taken :: still-queued. -/
theorem drain_queue_eq_getLast (c : String) (q : List String) :
    drain_queue c q = (c :: q).getLast (List.cons_ne_nil c q) := by
  induction q generalizing c with
  | nil => simp [drain_queue]
  | cons x rest ih =>
    rw [drain_queue, ih]
    exact (List.getLast_cons (List.cons_ne_nil x rest)).symm

/-- A retry loop that fails n times runs n + 1 attempts. -/
theorem retry_until_success_attempts (p : Option String) (f : String) (n : Nat) :
    (retry_until_success p f n).attempts = n + 1 := by
  induction n with
  | zero => rfl
  | succ k ih => simp [retry_until_success, ih]

/-- A retry loop that fails n times sleeps 600 s after each failure. -/
theorem retry_until_success_sleeps (p : Option String) (f : String) (n : Nat) :
    (retry_until_success p f n).sleeps = List.replicate n 600 := by
  induction n with
  | zero => rfl
  | succ k ih => simp [retry_until_success, ih, List.replicate_succ]

/-- A retry loop with no per-attempt progress message publishes exactly
its failure message once per failure. -/
theorem retry_until_success_none_msgs (f : String) (n : Nat) :
    (retry_until_success none f n).statusMessages = List.replicate n f := by
  induction n with
  | zero => rfl
  | succ k ih => simp [retry_until_success, ih, List.replicate_succ]

/-- A retry loop whose progress message differs from its failure message
publishes the failure message exactly once per failure. -/
theorem retry_until_success_count (m f : String) (hm : m ≠ f) (n : Nat) :
    ((retry_until_success (some m) f n).statusMessages).count f = n := by
  induction n with
  | zero => simp [retry_until_success, List.count_singleton, hm]
  | succ k ih =>
    simp [retry_until_success, List.count_cons, List.count_append, ih, hm]

/-- Every member of a list is at most its foldr-max. -/
theorem mem_le_foldr_max (l : List Nat) (x : Nat) (hx : x ∈ l) :
    x ≤ l.foldr max 0 := by
  induction l with
  | nil => cases hx
  | cons a rest ih =>
    rcases List.mem_cons.mp hx with h | h
    · subst h; exact le_max_left _ _
    · exact le_trans (ih h) (le_max_right _ _)

end Watchdog

deriving instance DecidableEq for Except

namespace Watchdog

/-! ## Concrete fixtures used by witnesses and counterexamples -/

/-- A board with the old binary running as pid 7. -/
def sample_board : BoardState :=
  { commit := "oldc", displayCount := 3, commitName := "old name",
    error := "", pid := some 7 }

/-- A supervisor state in the middle of the loop, on attempt 3. -/
def sample_state : SupState :=
  { board := sample_board, tryCounter := 3, totalCounter := 9, lockHeld := false }

/-- A rebuild environment in which every stage succeeds. -/
def sample_rebuild_ok : RebuildEnv :=
  { repoSyncFails := false, pluginSyncFails := false, rustUpdateFails := false,
    pluginBuildFails := false, binaryBuildFails := false, descFailures := 0,
    newCommit := "newc", newCommitName := "new name" }

/-- The child exits on its own with code 0 and no update is pending. -/
def input_exit_zero : IterInput :=
  { waitEnv := { firstEvent := .procExit 0, exitsWithinGrace := true, queuedAfter := [] },
    rebuild := sample_rebuild_ok }

/-- An update arrives and the subsequent repo sync fails. -/
def input_repo_sync_fail : IterInput :=
  { waitEnv := { firstEvent := .updateArrival "newc", exitsWithinGrace := true,
                 queuedAfter := [] },
    rebuild := { sample_rebuild_ok with repoSyncFails := true } }

/-- An update arrives and the whole rebuild succeeds. -/
def input_update_ok : IterInput :=
  { waitEnv := { firstEvent := .updateArrival "newc", exitsWithinGrace := true,
                 queuedAfter := [] },
    rebuild := sample_rebuild_ok }

/-- An update arrives with two more entries already queued; rebuild
succeeds. -/
def input_update_queued : IterInput :=
  { waitEnv := { firstEvent := .updateArrival "c0", exitsWithinGrace := false,
                 queuedAfter := ["c1", "c2"] },
    rebuild := sample_rebuild_ok }

/-! ## Claims -/

/-- C2 (amended): for every unplanned child-process exit — regardless of
exit code, 0 included — the supervisor records the died-for-unknown-reason
error message on the Status Board, sleeps the 300 s cool-down, keeps the
same revision id, increments the attempt counter by one, and rebuilds
nothing. -/
theorem C2_unplanned_exit (d : String) (st : SupState) (inp : IterInput)
    (code : Int) (h : inp.waitEnv.firstEvent = ProcEvent.procExit code) :
    (binary_runner_iter d st inp).1.board.error = died_error_msg ∧
    (binary_runner_iter d st inp).1.board.commit = st.board.commit ∧
    (binary_runner_iter d st inp).1.tryCounter = st.tryCounter + 1 ∧
    (binary_runner_iter d st inp).2.sleeps = [300] ∧
    (binary_runner_iter d st inp).2.rebuildTarget = none := by
  simp [binary_runner_iter, wait_for_process_or_signal, h]

/-- C2 witness: the amended claim at a concrete exit with code 0. -/
theorem C2_unplanned_exit_witness :
    input_exit_zero.waitEnv.firstEvent = ProcEvent.procExit 0 ∧
    ((binary_runner_iter "logs" sample_state input_exit_zero).1.board.error = died_error_msg ∧
     (binary_runner_iter "logs" sample_state input_exit_zero).1.board.commit =
       sample_state.board.commit ∧
     (binary_runner_iter "logs" sample_state input_exit_zero).1.tryCounter =
       sample_state.tryCounter + 1 ∧
     (binary_runner_iter "logs" sample_state input_exit_zero).2.sleeps = [300] ∧
     (binary_runner_iter "logs" sample_state input_exit_zero).2.rebuildTarget = none) :=
  ⟨by decide, C2_unplanned_exit "logs" sample_state input_exit_zero 0 (by decide)⟩

/-- C2 counterexample: the claim as stated is false — on an unplanned
exit with code 0 the supervisor does record an error message (the board's
error field becomes the died-for-unknown-reason string, not empty). -/
theorem C2_counterexample :
    input_exit_zero.waitEnv.firstEvent = ProcEvent.procExit 0 ∧
    (binary_runner_iter "logs" sample_state input_exit_zero).1.board.error =
      died_error_msg ∧
    died_error_msg ≠ "" := by
  decide

/-- C4: whenever an update arrival ends the wait, the commit the
supervisor goes on to rebuild is exactly the last entry of the sequence
first-received :: still-queued — intermediate entries are discarded by
the drain loop and never become the rebuild target. -/
theorem C4_drain_to_latest (d : String) (st : SupState) (inp : IterInput)
    (c : String) (h : inp.waitEnv.firstEvent = ProcEvent.updateArrival c) :
    (binary_runner_iter d st inp).2.rebuildTarget =
      some ((c :: inp.waitEnv.queuedAfter).getLast
        (List.cons_ne_nil c inp.waitEnv.queuedAfter)) := by
  simp only [binary_runner_iter, wait_for_process_or_signal, h,
    drain_queue_eq_getLast]
  split_ifs <;> rfl

/-- C4 witness: with entries c1, c2 queued behind the received c0, the
rebuild target is c2. -/
theorem C4_drain_to_latest_witness :
    input_update_queued.waitEnv.firstEvent = ProcEvent.updateArrival "c0" ∧
    (binary_runner_iter "logs" sample_state input_update_queued).2.rebuildTarget =
      some (("c0" :: input_update_queued.waitEnv.queuedAfter).getLast
        (List.cons_ne_nil "c0" input_update_queued.waitEnv.queuedAfter)) :=
  ⟨by decide,
   C4_drain_to_latest "logs" sample_state input_update_queued "c0" (by decide)⟩

/-- C5: on every exit path of the child wait the recorded pid is cleared
and the port-ownership lock is released; and when the wait ends by an
update arrival, the supervisor sends SIGINT, waits up to 120 s, and on
timeout additionally sends a kill. -/
theorem C5_shutdown_cleanup (d : String) (st : SupState) (inp : IterInput) :
    (binary_runner_iter d st inp).1.board.pid = none ∧
    (binary_runner_iter d st inp).1.lockHeld = false ∧
    (binary_runner_iter d st inp).2.waitTrace =
      (match inp.waitEnv.firstEvent with
       | .procExit _ => { sigActions := [], graceWaitSeconds := none }
       | .updateArrival _ =>
         { sigActions :=
             if inp.waitEnv.exitsWithinGrace then [SigAction.sigint]
             else [SigAction.sigint, SigAction.kill],
           graceWaitSeconds := some 120 }) := by
  rcases hev : inp.waitEnv.firstEvent with code | c <;>
    simp only [binary_runner_iter, wait_for_process_or_signal, hev]
  · simp
  · split_ifs <;> simp

/-- C1 (amended): when a rebuild stage of a planned restart fails, the
Status Board's recorded revision id is unchanged and its error field
carries the stage's failure message naming the drained target commit —
but the previously running binary has already been stopped as part of
handling the update event (a SIGINT was sent, before any rebuild step
ran) and the recorded child pid has been cleared, after which the
supervisor re-enters the start state for the old revision with the
attempt counter incremented. -/
theorem C1_restart_abort (d : String) (st : SupState) (inp : IterInput)
    (c : String) (hev : inp.waitEnv.firstEvent = ProcEvent.updateArrival c)
    (hfail : (inp.rebuild.repoSyncFails || inp.rebuild.pluginSyncFails ||
              inp.rebuild.rustUpdateFails || inp.rebuild.pluginBuildFails ||
              inp.rebuild.binaryBuildFails) = true) :
    (binary_runner_iter d st inp).1.board.commit = st.board.commit ∧
    (binary_runner_iter d st inp).1.board.pid = none ∧
    (binary_runner_iter d st inp).2.waitTrace.sigActions.head? =
      some SigAction.sigint ∧
    (binary_runner_iter d st inp).1.tryCounter = st.tryCounter + 1 ∧
    (binary_runner_iter d st inp).1.board.error =
      (if inp.rebuild.repoSyncFails then
         "Unable to update the local repo to " ++ drain_queue c inp.waitEnv.queuedAfter
       else if inp.rebuild.pluginSyncFails then
         "Unable to update the plugin repos!"
       else if inp.rebuild.rustUpdateFails then
         "Unable to update rust for new commit " ++ drain_queue c inp.waitEnv.queuedAfter
       else if inp.rebuild.pluginBuildFails then
         "Unable to build plugins"
       else
         "Unable to build commit " ++ drain_queue c inp.waitEnv.queuedAfter) := by
  simp only [binary_runner_iter, wait_for_process_or_signal, hev]
  split_ifs <;> simp_all

/-- C1 witness: the amended claim at a concrete failing repo sync. -/
theorem C1_restart_abort_witness :
    input_repo_sync_fail.waitEnv.firstEvent = ProcEvent.updateArrival "newc" ∧
    (input_repo_sync_fail.rebuild.repoSyncFails ||
     input_repo_sync_fail.rebuild.pluginSyncFails ||
     input_repo_sync_fail.rebuild.rustUpdateFails ||
     input_repo_sync_fail.rebuild.pluginBuildFails ||
     input_repo_sync_fail.rebuild.binaryBuildFails) = true ∧
    ((binary_runner_iter "logs" sample_state input_repo_sync_fail).1.board.commit =
       sample_state.board.commit ∧
     (binary_runner_iter "logs" sample_state input_repo_sync_fail).1.board.pid = none ∧
     (binary_runner_iter "logs" sample_state input_repo_sync_fail).2.waitTrace.sigActions.head? =
       some SigAction.sigint ∧
     (binary_runner_iter "logs" sample_state input_repo_sync_fail).1.tryCounter =
       sample_state.tryCounter + 1 ∧
     (binary_runner_iter "logs" sample_state input_repo_sync_fail).1.board.error =
       (if input_repo_sync_fail.rebuild.repoSyncFails then
          "Unable to update the local repo to " ++
            drain_queue "newc" input_repo_sync_fail.waitEnv.queuedAfter
        else if input_repo_sync_fail.rebuild.pluginSyncFails then
          "Unable to update the plugin repos!"
        else if input_repo_sync_fail.rebuild.rustUpdateFails then
          "Unable to update rust for new commit " ++
            drain_queue "newc" input_repo_sync_fail.waitEnv.queuedAfter
        else if input_repo_sync_fail.rebuild.pluginBuildFails then
          "Unable to build plugins"
        else
          "Unable to build commit " ++
            drain_queue "newc" input_repo_sync_fail.waitEnv.queuedAfter)) :=
  ⟨by decide, by decide,
   C1_restart_abort "logs" sample_state input_repo_sync_fail "newc"
     (by decide) (by decide)⟩

/-- C1 counterexample: the claim as stated is false — starting from a
board that records pid 7 for the running binary, a planned restart whose
repo sync fails ends with the recorded pid cleared (changed), and a
SIGINT was sent to the old binary (it was not left untouched). -/
theorem C1_counterexample :
    sample_state.board.pid = some 7 ∧
    input_repo_sync_fail.rebuild.repoSyncFails = true ∧
    (binary_runner_iter "logs" sample_state input_repo_sync_fail).1.board.pid ≠
      sample_state.board.pid ∧
    (binary_runner_iter "logs" sample_state input_repo_sync_fail).2.waitTrace.sigActions ≠
      [] := by
  decide

/-- C3 (amended): in the startup build pipeline, the toolchain update,
plugin build, main-binary build and revision-descriptor read are each
retried until success with a 600 s sleep after every failure, publishing
their failure message to the Status Channel once per failure; the
primary-source sync and the auxiliary-module sync, however, are attempted
exactly once, and their failure produces no retry, no delay and no
failure message on the Status Channel. -/
theorem C3_pipeline_retries (env : InitEnv) :
    ((binary_runner_init env).rustStage.attempts = env.rustFailures + 1 ∧
     (binary_runner_init env).rustStage.sleeps = List.replicate env.rustFailures 600 ∧
     (binary_runner_init env).rustStage.statusMessages =
       List.replicate env.rustFailures "Failed to update rust!") ∧
    ((binary_runner_init env).pluginBuildStage.attempts = env.pluginBuildFailures + 1 ∧
     (binary_runner_init env).pluginBuildStage.sleeps =
       List.replicate env.pluginBuildFailures 600 ∧
     ((binary_runner_init env).pluginBuildStage.statusMessages).count
       "Failed to build plugins!" = env.pluginBuildFailures) ∧
    ((binary_runner_init env).binaryBuildStage.attempts = env.binaryBuildFailures + 1 ∧
     (binary_runner_init env).binaryBuildStage.sleeps =
       List.replicate env.binaryBuildFailures 600 ∧
     ((binary_runner_init env).binaryBuildStage.statusMessages).count
       "Failed to build binary!" = env.binaryBuildFailures) ∧
    ((binary_runner_init env).descStage.attempts = env.descFailures + 1 ∧
     (binary_runner_init env).descStage.sleeps = List.replicate env.descFailures 600 ∧
     (binary_runner_init env).descStage.statusMessages =
       List.replicate env.descFailures "Failed to get commit!") ∧
    ((binary_runner_init env).repoSync.attempts = 1 ∧
     (binary_runner_init env).repoSync.sleeps = [] ∧
     (binary_runner_init env).repoSync.statusMessages = ["Updating Repo..."]) ∧
    ((binary_runner_init env).pluginSync.attempts = 1 ∧
     (binary_runner_init env).pluginSync.sleeps = [] ∧
     (binary_runner_init env).pluginSync.statusMessages = ["Updating Plugin Repos..."]) := by
  refine ⟨⟨?_, ?_, ?_⟩, ⟨?_, ?_, ?_⟩, ⟨?_, ?_, ?_⟩, ⟨?_, ?_, ?_⟩, ⟨rfl, rfl, rfl⟩,
    ⟨rfl, rfl, rfl⟩⟩ <;>
    simp [binary_runner_init, sync_once, retry_until_success_attempts,
      retry_until_success_sleeps, retry_until_success_none_msgs]
  · exact retry_until_success_count _ _ (by decide) _
  · exact retry_until_success_count _ _ (by decide) _

/-- C3 counterexample: the claim as stated is false — with a failing
primary-source sync the pipeline attempts the sync exactly once, sleeps
never, and publishes only the progress message, no failure message. -/
theorem C3_counterexample :
    ({ repoSyncFails := true, pluginSyncFails := false, rustFailures := 0,
       pluginBuildFailures := 0, binaryBuildFailures := 0, descFailures := 0,
       commit := "c", commitName := "n", existingAttempts := [] : InitEnv }).repoSyncFails
      = true ∧
    (binary_runner_init
      { repoSyncFails := true, pluginSyncFails := false, rustFailures := 0,
        pluginBuildFailures := 0, binaryBuildFailures := 0, descFailures := 0,
        commit := "c", commitName := "n", existingAttempts := [] }).repoSync.attempts = 1 ∧
    (binary_runner_init
      { repoSyncFails := true, pluginSyncFails := false, rustFailures := 0,
        pluginBuildFailures := 0, binaryBuildFailures := 0, descFailures := 0,
        commit := "c", commitName := "n", existingAttempts := [] }).repoSync.sleeps = [] ∧
    (binary_runner_init
      { repoSyncFails := true, pluginSyncFails := false, rustFailures := 0,
        pluginBuildFailures := 0, binaryBuildFailures := 0, descFailures := 0,
        commit := "c", commitName := "n", existingAttempts := [] }).repoSync.statusMessages =
      ["Updating Repo..."] := by
  decide

/-- C8 (amended): the per-attempt log files are named stdout_n.txt and
stderr_n.txt under the log root and revision directory; at process
startup the counter is strictly greater than every attempt number found
in the revision's log directory (and 1 when none exist); within a
revision each further start attempt increments the counter by one — but
after a planned restart that rebuilds successfully the counter is reset
to 0 (not recomputed from the directory), so the first attempt of the
new revision uses n = 0. -/
theorem C8_attempt_counter (d : String) (st : SupState) (inp : IterInput)
    (l : List Nat) (x : Nat) (hx : x ∈ l) :
    (binary_runner_iter d st inp).2.stdoutLog =
      d ++ "/" ++ st.board.commit ++ "/" ++ "stdout" ++ "_" ++
        toString st.tryCounter ++ ".txt" ∧
    (binary_runner_iter d st inp).2.stderrLog =
      d ++ "/" ++ st.board.commit ++ "/" ++ "stderr" ++ "_" ++
        toString st.tryCounter ++ ".txt" ∧
    x < initial_try_counter l ∧
    initial_try_counter [] = 1 ∧
    (binary_runner_iter d st inp).1.tryCounter =
      (if rebuild_succeeds inp then 0 else st.tryCounter + 1) ∧
    (binary_runner_iter d st inp).1.board.commit =
      (if rebuild_succeeds inp then inp.rebuild.newCommit else st.board.commit) := by
  refine ⟨?_, ?_, Nat.lt_succ_of_le (mem_le_foldr_max l x hx), rfl, ?_, ?_⟩ <;>
    rcases hev : inp.waitEnv.firstEvent with code | c <;>
    simp only [binary_runner_iter, wait_for_process_or_signal, hev,
      rebuild_succeeds] <;>
    first
      | (split_ifs <;> simp_all [get_log_file_path])
      | simp_all [get_log_file_path]

/-- C8 witness: the amended claim at a concrete state and input. -/
theorem C8_attempt_counter_witness :
    (5 : Nat) ∈ [2, 5] ∧
    ((binary_runner_iter "logs" sample_state input_exit_zero).2.stdoutLog =
       "logs" ++ "/" ++ sample_state.board.commit ++ "/" ++ "stdout" ++ "_" ++
         toString sample_state.tryCounter ++ ".txt" ∧
     (binary_runner_iter "logs" sample_state input_exit_zero).2.stderrLog =
       "logs" ++ "/" ++ sample_state.board.commit ++ "/" ++ "stderr" ++ "_" ++
         toString sample_state.tryCounter ++ ".txt" ∧
     (5 : Nat) < initial_try_counter [2, 5] ∧
     initial_try_counter [] = 1 ∧
     (binary_runner_iter "logs" sample_state input_exit_zero).1.tryCounter =
       (if rebuild_succeeds input_exit_zero then 0 else sample_state.tryCounter + 1) ∧
     (binary_runner_iter "logs" sample_state input_exit_zero).1.board.commit =
       (if rebuild_succeeds input_exit_zero then input_exit_zero.rebuild.newCommit
        else sample_state.board.commit)) :=
  ⟨by decide, C8_attempt_counter "logs" sample_state input_exit_zero [2, 5] 5 (by decide)⟩

/-- C8 counterexample: the claim as stated is false — after a successful
planned restart to revision newc the attempt counter is 0, and the next
start attempt of that revision opens logs/newc/stdout_0.txt, so n does
not start at 1 and is not computed from the directory contents. -/
theorem C8_counterexample :
    (binary_runner_iter "logs" sample_state input_update_ok).1.tryCounter = 0 ∧
    (binary_runner_iter "logs"
        (binary_runner_iter "logs" sample_state input_update_ok).1
        input_exit_zero).2.stdoutLog = "logs/newc/stdout_0.txt" := by
  decide

/-- C9: one probe cycle of the deadlock watchdog sets the board's error
field to the deadlock indicator when the read times out while the binary
is still believed running; a successful probe restores an error equal to
the indicator to empty but leaves any other error string untouched; a
timeout with the binary no longer believed running changes nothing; and
the probe read waits at most 10 seconds. -/
theorem C9_deadlock_probe (e1 e2 : String) (cAT : Bool)
    (h : e2 ≠ deadlock_msg) :
    (deadlock_checker_cycle true true e1 ProbeOutcome.timeout).1 = deadlock_msg ∧
    (deadlock_checker_cycle true cAT e2 ProbeOutcome.response).1 = e2 ∧
    (deadlock_checker_cycle true cAT deadlock_msg ProbeOutcome.response).1 = "" ∧
    (deadlock_checker_cycle true false e1 ProbeOutcome.timeout).1 = e1 ∧
    (deadlock_checker_cycle true cAT e1 ProbeOutcome.timeout).2.readDeadline = some 10 := by
  simp [deadlock_checker_cycle, h]

/-- C9 witness: the probe-cycle claim at concrete error strings. -/
theorem C9_deadlock_probe_witness :
    ("supervisor error" : String) ≠ deadlock_msg ∧
    ((deadlock_checker_cycle true true "old" ProbeOutcome.timeout).1 = deadlock_msg ∧
     (deadlock_checker_cycle true true "supervisor error" ProbeOutcome.response).1 =
       "supervisor error" ∧
     (deadlock_checker_cycle true true deadlock_msg ProbeOutcome.response).1 = "" ∧
     (deadlock_checker_cycle true false "old" ProbeOutcome.timeout).1 = "old" ∧
     (deadlock_checker_cycle true true "old" ProbeOutcome.timeout).2.readDeadline =
       some 10) :=
  ⟨by decide, C9_deadlock_probe "old" "supervisor error" true (by decide)⟩

/-- C6: the varint encoder and decoder round-trip on 0, 1, 127, 128,
16383, 16384 and 268435455, with the decoder reporting exactly the
encoded byte count and leaving the stream empty; and any stream whose
first five bytes all carry the continuation bit makes the decoder fail
with the VarInt-too-big protocol error, whatever bytes follow — so no
sixth continuation byte is ever consumed. -/
theorem C6_varint_roundtrip (b0 b1 b2 b3 b4 : Nat) (rest : List Nat)
    (h0 : b0 &&& 0x80 ≠ 0) (h1 : b1 &&& 0x80 ≠ 0) (h2 : b2 &&& 0x80 ≠ 0)
    (h3 : b3 &&& 0x80 ≠ 0) (h4 : b4 &&& 0x80 ≠ 0) :
    (mc_read_var_int (mc_write_var_int 0) =
       Except.ok (0, (mc_write_var_int 0).length, []) ∧
     mc_read_var_int (mc_write_var_int 1) =
       Except.ok (1, (mc_write_var_int 1).length, []) ∧
     mc_read_var_int (mc_write_var_int 127) =
       Except.ok (127, (mc_write_var_int 127).length, []) ∧
     mc_read_var_int (mc_write_var_int 128) =
       Except.ok (128, (mc_write_var_int 128).length, []) ∧
     mc_read_var_int (mc_write_var_int 16383) =
       Except.ok (16383, (mc_write_var_int 16383).length, []) ∧
     mc_read_var_int (mc_write_var_int 16384) =
       Except.ok (16384, (mc_write_var_int 16384).length, []) ∧
     mc_read_var_int (mc_write_var_int 268435455) =
       Except.ok (268435455, (mc_write_var_int 268435455).length, [])) ∧
    mc_read_var_int (b0 :: b1 :: b2 :: b3 :: b4 :: rest) =
      Except.error MCErr.varIntTooBig := by
  have e0 : mc_write_var_int 0 = [0] := by
    simp [mc_write_var_int.eq_def]
  have e1 : mc_write_var_int 1 = [1] := by
    simp [mc_write_var_int.eq_def]
  have e127 : mc_write_var_int 127 = [127] := by
    simp [mc_write_var_int.eq_def]
  have e128 : mc_write_var_int 128 = [0x80, 0x01] := by
    simp [mc_write_var_int.eq_def]
    decide
  have e16383 : mc_write_var_int 16383 = [0xFF, 0x7F] := by
    simp [mc_write_var_int.eq_def]
    decide
  have e16384 : mc_write_var_int 16384 = [0x80, 0x80, 0x01] := by
    simp [mc_write_var_int.eq_def]
    decide
  have e268 : mc_write_var_int 268435455 = [0xFF, 0xFF, 0xFF, 0x7F] := by
    simp [mc_write_var_int.eq_def]
    decide
  constructor
  · rw [e0, e1, e127, e128, e16383, e16384, e268]
    decide
  · simp [mc_read_var_int, mc_read_var_int_loop, h0, h1, h2, h3, h4]

/-- C6 witness: the round-trip part and the failure of a stream of five
continuation bytes, at concrete bytes 0x80 0x80 0x80 0x80 0x80. -/
theorem C6_varint_roundtrip_witness :
    ((0x80 : Nat) &&& 0x80 ≠ 0) ∧
    mc_read_var_int [0x80, 0x80, 0x80, 0x80, 0x80] =
      Except.error MCErr.varIntTooBig :=
  ⟨by decide,
   (C6_varint_roundtrip 0x80 0x80 0x80 0x80 0x80 []
     (by decide) (by decide) (by decide) (by decide) (by decide)).2⟩

/-- C7: a handshake frame (packet id 0) whose declared total length
differs from the sum packet-id bytes + protocol-version bytes +
address-length-prefix bytes + declared address bytes + 2 port bytes +
next-state bytes makes handle_mc fail with the bad-packet-length error —
the exception path of the handler, in which nothing is written back and
the connection is closed. -/
theorem C7_handshake_length_mismatch (err : String)
    (input r1 r2 r3 r4 r5 : List Nat)
    (plen lb idb pv pvb alen alb ns nsb : Nat)
    (h1 : mc_read_var_int input = Except.ok (plen, lb, r1))
    (h2 : mc_read_var_int r1 = Except.ok (0, idb, r2))
    (h3 : mc_read_var_int r2 = Except.ok (pv, pvb, r3))
    (h4 : mc_read_var_int r3 = Except.ok (alen, alb, r4))
    (h5 : alen ≤ 255)
    (h6 : mc_read_var_int ((r4.drop alen).drop 2) = Except.ok (ns, nsb, r5))
    (hmis : idb + pvb + alb + alen + 2 + nsb ≠ plen) :
    handle_mc err input =
      Except.error (MCErr.badPacketLength (idb + pvb + alb + alen + 2 + nsb) plen) := by
  have h5' : ¬ (alen > 255) := by omega
  have h6' : mc_read_var_int (r4.drop (alen + 2)) = Except.ok (ns, nsb, r5) := by
    rw [List.drop_drop] at h6
    exact h6
  simp [handle_mc, h1, h2, h3, h4, h6', h5', hmis]

/-- C7 witness: a concrete handshake frame declaring length 7 whose
fields sum to 6 is rejected with the bad-packet-length error. -/
theorem C7_handshake_length_mismatch_witness :
    mc_read_var_int [7, 0, 0, 0, 0xAA, 0xBB, 0] =
      Except.ok (7, 1, [0, 0, 0, 0xAA, 0xBB, 0]) ∧
    mc_read_var_int [0, 0, 0, 0xAA, 0xBB, 0] = Except.ok (0, 1, [0, 0, 0xAA, 0xBB, 0]) ∧
    mc_read_var_int [0, 0, 0xAA, 0xBB, 0] = Except.ok (0, 1, [0, 0xAA, 0xBB, 0]) ∧
    mc_read_var_int [0, 0xAA, 0xBB, 0] = Except.ok (0, 1, [0xAA, 0xBB, 0]) ∧
    (0 : Nat) ≤ 255 ∧
    mc_read_var_int ((([0xAA, 0xBB, 0] : List Nat).drop 0).drop 2) =
      Except.ok (0, 1, []) ∧
    (1 + 1 + 1 + 0 + 2 + 1 : Nat) ≠ 7 ∧
    handle_mc "status text" [7, 0, 0, 0, 0xAA, 0xBB, 0] =
      Except.error (MCErr.badPacketLength (1 + 1 + 1 + 0 + 2 + 1) 7) :=
  ⟨by decide, by decide, by decide, by decide, by decide, by decide, by decide,
   C7_handshake_length_mismatch "status text"
     [7, 0, 0, 0, 0xAA, 0xBB, 0] [0, 0, 0, 0xAA, 0xBB, 0] [0, 0, 0xAA, 0xBB, 0]
     [0, 0xAA, 0xBB, 0] [0xAA, 0xBB, 0] []
     7 1 1 0 1 0 1 0 1
     (by decide) (by decide) (by decide) (by decide) (by decide) (by decide)
     (by decide)⟩

/-- C10: the varint decoder places each byte's low 7 bits at positions
0, 7, 14, 21 and 28 with no 32-bit mask, so the well-formed 5-byte input
FF FF FF FF 7F decodes successfully to 2 to the 35th power minus 1 — a
value beyond the 32-bit unsigned range — rather than being rejected or
truncated. -/
theorem C10_decoder_exceeds_32_bits :
    mc_read_var_int [0xFF, 0xFF, 0xFF, 0xFF, 0x7F] =
      Except.ok (34359738367, 5, []) ∧
    34359738367 = 2 ^ 35 - 1 ∧
    2 ^ 32 - 1 < 34359738367 := by
  decide

end Watchdog
